import Mathlib

/-!
Verification development for the Smart Life Concierge agent
(`concierge_agent.py`, `example_usage.py`).

The Python sources are shallowly embedded as pure Lean functions:
side effects (file writes, the wall clock, the generative-model service)
become explicit parameters or returned values, and the canned tool
implementations are transcribed literally.  The tool-calling resolver
(`resolve`) and the request router (`route_request`) are referenced by the
repository (`example_usage.py` imports `route_request`) but their bodies are
not present in the sources; they are modelled from the design document,
sections 4.1 and 4.2.
-/

namespace SmartLifeConcierge

/-- A JSON-like value, standing in for the Python dict/list/str/int values
that the tools and the session serialization traffic in. -/
inductive Json where
  | str : String → Json
  | num : Int → Json
  | arr : List Json → Json
  | obj : List (String × Json) → Json
deriving Repr

/-- ASCII lower-casing of one character, the behaviour of Python
`str.lower()` on the ASCII keywords this program matches against. -/
def lowerChar (c : Char) : Char :=
  if 'A' ≤ c ∧ c ≤ 'Z' then Char.ofNat (c.toNat + 32) else c

/-- Lower-case a whole string, modelling `query.lower()`. -/
def lowerStr (s : String) : String := String.mk (s.data.map lowerChar)

/-- Is `needle` a leading segment of `hay`? Helper for substring search. -/
def prefChars : List Char → List Char → Bool
  | [], _ => true
  | _ :: _, [] => false
  | n :: ns, h :: hs => n == h && prefChars ns hs

/-- Does `hay` contain `needle` as a contiguous run? Models Python
`needle in hay` on strings. -/
def infChars (needle : List Char) : List Char → Bool
  | [] => needle.isEmpty
  | c :: cs => prefChars needle (c :: cs) || infChars needle cs

/-- Case-insensitive keyword test: models `kw in text.lower()` where `kw`
is an ASCII lower-case literal. -/
def containsCI (text kw : String) : Bool :=
  infChars kw.data (lowerStr text).data

/-- Python `s[:n]`: the first `n` characters of `s` (all of `s` if shorter). -/
def pyTake (s : String) (n : Nat) : String := String.mk (s.data.take n)

/-- Models `os.path.join(a, b)` for the POSIX paths this program builds: `b` wins
when absolute, otherwise the components are joined with a slash. -/
def pathJoin (a b : String) : String :=
  if b.startsWith "/" then b else a ++ "/" ++ b

/-! ## Custom tools (`concierge_agent.py`, lines 19-113) -/

/-- Embeds `save_plan_to_file(filename, content)`.  The filesystem interaction of
the `try` block (`os.makedirs` + `open` + `write`) is abstracted as the
oracle `fs`, which either succeeds or raises with an exception message. -/
def save_plan_to_file (filename content : String)
    (fs : String → String → Except String Unit) : String :=
  let filepath := pathJoin "output" filename
  match fs filepath content with
  | .ok _ => "Successfully saved to " ++ filepath
  | .error e => "Error saving file: " ++ e

/-- The canned dietary preferences dict of `get_user_preferences`. -/
def dietaryPreferences : Json :=
  .obj [("restrictions", .arr [.str "vegetarian"]),
        ("favorite_cuisines", .arr [.str "Italian", .str "Indian", .str "Mexican"]),
        ("disliked_foods", .arr [.str "mushrooms", .str "olives"]),
        ("calorie_target", .num 2000),
        ("meal_frequency", .num 3)]

/-- The canned travel preferences dict of `get_user_preferences`. -/
def travelPreferences : Json :=
  .obj [("budget_level", .str "moderate"),
        ("preferred_activities", .arr [.str "museums", .str "hiking", .str "local food"]),
        ("accommodation_preference", .str "boutique hotels"),
        ("travel_pace", .str "relaxed")]

/-- The canned budget preferences dict of `get_user_preferences`. -/
def budgetPreferences : Json :=
  .obj [("weekly_grocery_budget", .num 150),
        ("dining_out_budget", .num 100),
        ("travel_daily_budget", .num 200)]

/-- Embeds `get_user_preferences(preference_type)`: a literal dict of three canned
entries followed by `preferences.get(preference_type, \x7b\x7d)`. -/
def get_user_preferences (preference_type : String) : Json :=
  if preference_type = "dietary" then dietaryPreferences
  else if preference_type = "travel" then travelPreferences
  else if preference_type = "budget" then budgetPreferences
  else .obj []

/-- The fixed recipe listing returned by `web_search_tool`. -/
def recipeResults : String :=
  "\n        Found 5 recipes:\n        1. Easy Vegetarian Pasta Primavera (30 min, $12 for 4 servings)\n        2. Quick Indian Dal Tadka (25 min, $8 for 4 servings)\n        3. Mexican Black Bean Tacos (20 min, $10 for 4 servings)\n        4. Mediterranean Chickpea Salad (15 min, $9 for 4 servings)\n        5. Thai Vegetable Stir-fry (25 min, $11 for 4 servings)\n        "

/-- The fixed travel listing returned by `web_search_tool`. -/
def travelResults : String :=
  "\n        Travel recommendations:\n        - Kyoto, Japan: Rich culture, temples, excellent food scene\n        - Barcelona, Spain: Architecture, beaches, vibrant nightlife\n        - Portland, Oregon: Nature, breweries, food trucks\n        - Edinburgh, Scotland: History, hiking, festivals\n        "

/-- The fixed grocery-price listing returned by `web_search_tool`. -/
def groceryResults : String :=
  "\n        Current grocery prices:\n        - Fresh vegetables: $3-5/lb\n        - Pasta: $2-3/box\n        - Beans (canned): $1-2/can\n        - Rice: $10-15/5lb bag\n        - Spices: $3-8 each\n        "

/-- Embeds `web_search_tool(query)`: keyword dispatch on the lower-cased query,
first match wins, default echoes the query. -/
def web_search_tool (query : String) : String :=
  if containsCI query "recipe" then recipeResults
  else if containsCI query "travel" then travelResults
  else if containsCI query "grocery" || containsCI query "price" then groceryResults
  else "Search results for: " ++ query

/-! ## Session and memory management (`concierge_agent.py`, lines 340-392) -/

/-- One entry of `session_history`: the dict appended by `add_interaction`. -/
structure InteractionRecord where
  timestamp : String
  request : String
  response : String
deriving Repr, DecidableEq

/-- The mutable state of a `ConciergeSession` object.  `datetime` values are
carried as their ISO-format strings. -/
structure ConciergeSession where
  user_id : String
  session_history : List InteractionRecord
  preferences : List (String × Json)
  past_plans : List Json
  created_at : String
deriving Repr

/-- Embeds `add_interaction(request, response)`: appends one record to
`session_history`.  The `datetime.now().isoformat()` call is the explicit
`now` argument. -/
def add_interaction (s : ConciergeSession) (now request response : String) :
    ConciergeSession :=
  { s with session_history :=
      s.session_history ++ [⟨now, request, response⟩] }

/-- Embeds `get_context()`: the sentinel on an empty history, otherwise a header
line followed by one truncated line per record of the last three. -/
def get_context (s : ConciergeSession) : String :=
  if s.session_history.isEmpty then "No previous interactions"
  else
    let recent := s.session_history.drop (s.session_history.length - 3)
    recent.foldl (fun ctx r => ctx ++ ("- " ++ pyTake r.request 100 ++ "...\n"))
      "Recent interactions:\n"

/-- The JSON serialization of one history record, as `json.dump` writes it. -/
def interactionJson (r : InteractionRecord) : Json :=
  .obj [("timestamp", .str r.timestamp),
        ("request", .str r.request),
        ("response", .str r.response)]

/-- Embeds `save_session()`: builds the `session_data` dict and writes it to
`sessions/<user_id>_session.json`.  The file write is modelled by returning
the pair (path written to and returned, JSON document written). -/
def save_session (s : ConciergeSession) : String × Json :=
  let session_data : Json :=
    .obj [("user_id", .str s.user_id),
          ("history", .arr (s.session_history.map interactionJson)),
          ("preferences", .obj s.preferences),
          ("past_plans", .arr s.past_plans),
          ("created_at", .str s.created_at)]
  ("sessions/" ++ s.user_id ++ "_session.json", session_data)

/-- The keys of a JSON object, in order; `[]` on non-objects. -/
def jsonKeys : Json → List String
  | .obj kvs => kvs.map (fun kv => kv.1)
  | _ => []

/-! ## Tool-calling resolver

Modelled from the spec: `resolve(prompt, instruction, tool_set, max_rounds=3)`
of design section 4.2 is imported and driven by the demo scripts but its body
is not among the sources; the definitions below follow the section 4.2
algorithm and the section 6 model-invocation contract word for word. -/

/-- A tool-call request emitted by the model: a tool name plus arguments. -/
structure ToolCallRequest where
  name : String
  arguments : List (String × Json)
deriving Repr

/-- A registered tool: unique name plus a callable that returns a result or
an error description. -/
structure ToolSpec where
  name : String
  call : List (String × Json) → Except String Json

/-- One tool answer fed back to the model: tagged with the tool name, the
payload either a success value or an error description. -/
structure ToolResultItem where
  tool_name : String
  payload : Except String Json

/-- One model response: optional final text plus the tool calls it requests.
Presence of tool calls means the text is not yet final. -/
structure ModelOutput where
  text : Option String
  toolCalls : List ToolCallRequest

/-- One turn of the conversation accumulator. -/
inductive ConvItem where
  | userPrompt : String → ConvItem
  | modelTurn : ModelOutput → ConvItem
  | toolResults : List ToolResultItem → ConvItem

/-- The external model invocation service: a deterministic oracle from
(instruction, tool declarations, accumulated conversation) to one output. -/
def ModelService : Type :=
  String → List String → List ConvItem → ModelOutput

/-- Terminal states of the resolver. -/
inductive ResolveStatus where
  | done
  | degradedExhausted
deriving Repr, DecidableEq

/-- What `resolve` hands back to its caller, instrumented with how many
rounds of tool execution and how many individual tool executions ran. -/
structure ResolveResult where
  status : ResolveStatus
  text : Option String
  rounds : Nat
  toolExecutions : Nat
deriving Repr, DecidableEq

/-- Modelled from the spec: section 4.3 Tool Executor.  Exact name match
against the tool set; a missing tool becomes an explicit error item, a tool
failure is captured in the payload, never propagated. -/
def executeTool (tool_set : List ToolSpec) (req : ToolCallRequest) :
    ToolResultItem :=
  match tool_set.find? (fun t => t.name == req.name) with
  | none => ⟨req.name, .error "tool not found"⟩
  | some t => ⟨req.name, t.call req.arguments⟩

/-- The tool declarations derived from a tool set: the names the model is
told are available. -/
def declsOf (tool_set : List ToolSpec) : List String :=
  tool_set.map (fun t => t.name)

/-- Modelled from the spec: the iterated part of section 4.2 — for up to
`roundsLeft` iterations execute the pending tool calls, append the results,
re-invoke the model, and stop early on a tool-free output; on exhaustion
return the last obtained output as a degraded result. -/
def resolveLoop (model : ModelService) (instruction : String)
    (tool_set : List ToolSpec) (conv : List ConvItem) (lastOut : ModelOutput) :
    Nat → Nat → Nat → ResolveResult
  | 0, roundsDone, execsDone =>
    ⟨.degradedExhausted, lastOut.text, roundsDone, execsDone⟩
  | roundsLeft + 1, roundsDone, execsDone =>
    let results := lastOut.toolCalls.map (executeTool tool_set)
    let conv2 := conv ++ [.toolResults results]
    let out2 := model instruction (declsOf tool_set) conv2
    if out2.toolCalls.isEmpty then
      ⟨.done, out2.text, roundsDone + 1, execsDone + results.length⟩
    else
      resolveLoop model instruction tool_set (conv2 ++ [.modelTurn out2]) out2
        roundsLeft (roundsDone + 1) (execsDone + results.length)

/-- Modelled from the spec: `resolve(prompt, instruction, tool_set,
max_rounds)` of section 4.2.  One initial model call; a tool-free output is
returned immediately, otherwise the round loop runs. -/
def resolve (model : ModelService) (prompt instruction : String)
    (tool_set : List ToolSpec) (max_rounds : Nat := 3) : ResolveResult :=
  let conv0 : List ConvItem := [.userPrompt prompt]
  let out := model instruction (declsOf tool_set) conv0
  if out.toolCalls.isEmpty then ⟨.done, out.text, 0, 0⟩
  else resolveLoop model instruction tool_set (conv0 ++ [.modelTurn out]) out
    max_rounds 0 0

/-- The model output obtained after `n` further rounds starting from
conversation `conv` whose latest output is `out`: the reference trace used
to state which output a degraded `resolve` hands back. -/
def lastOutputFrom (model : ModelService) (instruction : String)
    (tool_set : List ToolSpec) (conv : List ConvItem) (out : ModelOutput) :
    Nat → ModelOutput
  | 0 => out
  | n + 1 =>
    let results := out.toolCalls.map (executeTool tool_set)
    let conv2 := conv ++ [.toolResults results]
    let out2 := model instruction (declsOf tool_set) conv2
    lastOutputFrom model instruction tool_set (conv2 ++ [.modelTurn out2]) out2 n

/-! ## Request router

Modelled from the spec: `route_request` is imported from `concierge_agent`
by `example_usage.py` but its body is not among the sources; the definition
below follows the section 4.1 decision policy — first-match-wins over the
ordered keyword lists, case-insensitive substring matching, fallback with
the reduced tool set. -/

/-- Which instruction/tool bundle the router selected. -/
inductive BundleKind where
  | mealPlanning
  | shopping
  | travel
  | fallbackClarification
deriving Repr, DecidableEq

/-- The router's pure output: the selected bundle and its tool subset. -/
structure RoutingDecision where
  bundle : BundleKind
  toolNames : List String
deriving Repr, DecidableEq

/-- The meal-planning bundle (rule 1). -/
def mealDecision : RoutingDecision :=
  ⟨.mealPlanning, ["web_search_tool", "get_user_preferences"]⟩

/-- The shopping bundle (rule 2). -/
def shoppingDecision : RoutingDecision :=
  ⟨.shopping, ["web_search_tool", "get_user_preferences"]⟩

/-- The travel bundle (rule 3). -/
def travelDecision : RoutingDecision :=
  ⟨.travel, ["web_search_tool", "get_user_preferences"]⟩

/-- The fallback clarification bundle (rule 4): preferences lookup only. -/
def fallbackDecision : RoutingDecision :=
  ⟨.fallbackClarification, ["get_user_preferences"]⟩

/-- Does the text contain any of the keywords, case-insensitively? -/
def kwMatch (text : String) (kws : List String) : Bool :=
  kws.any (fun kw => containsCI text kw)

/-- Modelled from the spec: `route(user_text)` of section 4.1, first match
wins in rule order. -/
def route_request (user_text : String) : RoutingDecision :=
  if kwMatch user_text ["meal plan", "recipe", "dinner"] then mealDecision
  else if kwMatch user_text ["shopping list", "grocery"] then shoppingDecision
  else if kwMatch user_text ["travel", "trip", "itinerary"] then travelDecision
  else fallbackDecision

/-! ## Concrete inputs used to instantiate the theorems below -/

/-- A session whose history holds five short interactions. -/
def demoSession5 : ConciergeSession :=
  ⟨"demo_memory_user",
   [⟨"t1", "one", "r1"⟩, ⟨"t2", "two", "r2"⟩, ⟨"t3", "three", "r3"⟩,
    ⟨"t4", "four", "r4"⟩, ⟨"t5", "five", "r5"⟩],
   [], [], "2024-01-01T00:00:00"⟩

/-- A model oracle that immediately answers with final text and no tool
calls. -/
def echoModel : ModelService :=
  fun _ _ _ => ⟨some "Here is your plan.", []⟩

/-- A model oracle that requests a tool call on every invocation and never
produces a terminal, tool-free output. -/
def busyModel : ModelService :=
  fun _ _ _ => ⟨some "partial plan",
    [⟨"web_search_tool", [("query", .str "vegetarian recipe")]⟩]⟩

/-! ## Theorems -/

/-- A nonempty list is not `isEmpty`. -/
theorem isEmpty_false_of_ne_nil {α : Type} {l : List α} (h : l ≠ []) :
    l.isEmpty = false := by
  cases l with
  | nil => exact absurd rfl h
  | cons a as => rfl

/-- Folding string concatenation from an arbitrary seed factors the seed
out in front. -/
theorem strFoldl_shift {α : Type} (f : α → String) (l : List α) (init : String) :
    l.foldl (fun acc x => acc ++ f x) init
      = init ++ l.foldl (fun acc x => acc ++ f x) "" := by
  induction l generalizing init with
  | nil => simp
  | cons a as ih =>
    rw [List.foldl_cons, List.foldl_cons, ih (init ++ f a), ih ("" ++ f a),
      String.empty_append, String.append_assoc]

/-- Claim C4 (counterexample): on a session with empty history,
`get_context` does not return the string "no prior interactions". -/
theorem get_context_sentinel_counterexample :
    get_context ⟨"demo_user_001", [], [], [], "2024-01-01T00:00:00"⟩
      ≠ "no prior interactions" := by decide

/-- Claim C4 (amended): on every session whose history is empty,
`get_context` returns the fixed sentinel string "No previous
interactions". -/
theorem get_context_empty_sentinel (s : ConciergeSession)
    (h : s.session_history = []) :
    get_context s = "No previous interactions" := by
  simp [get_context, h]

/-- Witness for the amended claim C4 at a concrete empty session. -/
theorem get_context_empty_sentinel_witness :
    get_context ⟨"demo_user_001", [], [], [], "2024-01-01T00:00:00"⟩
      = "No previous interactions" :=
  get_context_empty_sentinel ⟨"demo_user_001", [], [], [], "2024-01-01T00:00:00"⟩ rfl

/-- Claim C6: `add_interaction` appends exactly one record, leaves every
earlier record unchanged, and `get_context` is a pure view that depends
only on the last three stored records — storage itself is never
windowed. -/
theorem add_interaction_append_only (s : ConciergeSession)
    (now request response : String) :
    (add_interaction s now request response).session_history
        = s.session_history ++ [⟨now, request, response⟩] ∧
    (add_interaction s now request response).session_history.take
        s.session_history.length = s.session_history ∧
    get_context s = get_context
        ⟨s.user_id, s.session_history.drop (s.session_history.length - 3),
         s.preferences, s.past_plans, s.created_at⟩ := by
  refine ⟨rfl, ?_, ?_⟩
  · simp [add_interaction]
  · by_cases hE : s.session_history = []
    · simp [get_context, hE]
    · have hne : s.session_history.isEmpty = false := isEmpty_false_of_ne_nil hE
      have hpos : 0 < s.session_history.length := List.length_pos.mpr hE
      have hdne : s.session_history.drop
          (s.session_history.length - 3) ≠ [] := by
        intro hnil
        have := List.drop_eq_nil_iff.mp hnil
        omega
      have hne2 : (s.session_history.drop
          (s.session_history.length - 3)).isEmpty = false :=
        isEmpty_false_of_ne_nil hdne
      have hzero : (s.session_history.drop
          (s.session_history.length - 3)).length - 3 = 0 := by
        simp only [List.length_drop]
        omega
      simp only [get_context, hne, hne2, Bool.false_eq_true, if_false, hzero,
        List.drop_zero]

/-- Claim C7: `save_session` returns the storage location
`sessions/<user_id>_session.json` and writes a JSON object holding exactly
the fields user_id, history, preferences, past_plans, created_at, drawn
from the session. -/
theorem save_session_fields (s : ConciergeSession) :
    (save_session s).1 = "sessions/" ++ s.user_id ++ "_session.json" ∧
    jsonKeys (save_session s).2
        = ["user_id", "history", "preferences", "past_plans", "created_at"] ∧
    (save_session s).2
        = .obj [("user_id", .str s.user_id),
                ("history", .arr (s.session_history.map interactionJson)),
                ("preferences", .obj s.preferences),
                ("past_plans", .arr s.past_plans),
                ("created_at", .str s.created_at)] :=
  ⟨rfl, rfl, rfl⟩

/-- Claim C8: `save_plan_to_file` always returns a string and never lets
the underlying file failure escape: either the success message naming the
output path, or an error description beginning "Error saving file:". -/
theorem save_plan_to_file_total (filename content : String)
    (fs : String → String → Except String Unit) :
    save_plan_to_file filename content fs
        = "Successfully saved to " ++ pathJoin "output" filename ∨
    ∃ e, save_plan_to_file filename content fs = "Error saving file: " ++ e := by
  cases h : fs (pathJoin "output" filename) content with
  | ok u => exact Or.inl (by simp [save_plan_to_file, h])
  | error e => exact Or.inr ⟨e, by simp [save_plan_to_file, h]⟩

/-- Claim C9: `get_user_preferences` is total: the three canned mappings
for "dietary", "travel" and "budget", and the empty mapping for every
other preference type. -/
theorem get_user_preferences_canned :
    get_user_preferences "dietary" = dietaryPreferences ∧
    get_user_preferences "travel" = travelPreferences ∧
    get_user_preferences "budget" = budgetPreferences ∧
    ∀ t : String, t ≠ "dietary" → t ≠ "travel" → t ≠ "budget" →
      get_user_preferences t = .obj [] := by
  refine ⟨rfl, rfl, rfl, ?_⟩
  intro t h1 h2 h3
  simp [get_user_preferences, h1, h2, h3]

/-- Witness for claim C9: an unknown preference type yields the empty
mapping. -/
theorem get_user_preferences_canned_witness :
    get_user_preferences "social" = .obj [] :=
  get_user_preferences_canned.2.2.2 "social" (by decide) (by decide) (by decide)

/-- Claim C10: `web_search_tool` dispatches on the lower-cased query with
first match wins — recipe beats travel beats grocery/price beats the
echoing default. -/
theorem web_search_tool_dispatch (q : String) :
    (containsCI q "recipe" = true → web_search_tool q = recipeResults) ∧
    (containsCI q "recipe" = false → containsCI q "travel" = true →
      web_search_tool q = travelResults) ∧
    (containsCI q "recipe" = false → containsCI q "travel" = false →
      (containsCI q "grocery" = true ∨ containsCI q "price" = true) →
      web_search_tool q = groceryResults) ∧
    (containsCI q "recipe" = false → containsCI q "travel" = false →
      containsCI q "grocery" = false → containsCI q "price" = false →
      web_search_tool q = "Search results for: " ++ q) := by
  refine ⟨?_, ?_, ?_, ?_⟩
  · intro h1; simp [web_search_tool, h1]
  · intro h1 h2; simp [web_search_tool, h1, h2]
  · intro h1 h2 h3
    cases h3 with
    | inl hg => simp [web_search_tool, h1, h2, hg]
    | inr hp => simp [web_search_tool, h1, h2, hp]
  · intro h1 h2 h3 h4; simp [web_search_tool, h1, h2, h3, h4]

/-- Witness for claim C10: a query mentioning both recipe and travel gets
the recipe listing. -/
theorem web_search_tool_dispatch_witness :
    web_search_tool "Vegetarian RECIPE ideas while I travel" = recipeResults :=
  (web_search_tool_dispatch "Vegetarian RECIPE ideas while I travel").1 (by decide)

/-- Claim C3: the router is total — every text lands in one of the four
bundles — and first-match-wins makes any text containing both "recipe" and
"travel" resolve to the meal-planning bundle. -/
theorem route_request_total_first_match (t : String) :
    (route_request t = mealDecision ∨ route_request t = shoppingDecision ∨
     route_request t = travelDecision ∨ route_request t = fallbackDecision) ∧
    (containsCI t "recipe" = true → containsCI t "travel" = true →
      route_request t = mealDecision) := by
  constructor
  · unfold route_request
    split_ifs <;> simp
  · intro h1 _h2
    have hm : kwMatch t ["meal plan", "recipe", "dinner"] = true := by
      simp [kwMatch, h1]
    simp [route_request, hm]

/-- Witness for claim C3: a request mentioning both a recipe and travel is
routed to the meal-planning bundle. -/
theorem route_request_total_first_match_witness :
    route_request "share a recipe I can cook while I travel" = mealDecision :=
  (route_request_total_first_match "share a recipe I can cook while I travel").2
    (by decide) (by decide)

/-- Claim C5: on a nonempty history, `get_context` is the header line
followed by exactly the last three records (or all of them when fewer),
in chronological order, each request truncated to its first 100
characters. -/
theorem get_context_recent_window (s : ConciergeSession)
    (h : s.session_history ≠ []) :
    get_context s = "Recent interactions:\n" ++
      String.join (((s.session_history.reverse.take 3).reverse).map
        (fun r => "- " ++ pyTake r.request 100 ++ "...\n")) := by
  have hne : s.session_history.isEmpty = false := isEmpty_false_of_ne_nil h
  have hlist : (s.session_history.reverse.take 3).reverse
      = s.session_history.drop (s.session_history.length - 3) := by
    rw [← List.rtake_eq_reverse_take_reverse]
    rfl
  rw [hlist]
  simp only [get_context, hne, Bool.false_eq_true, if_false]
  rw [strFoldl_shift]
  congr 1
  rw [String.join, List.foldl_map]

/-- Witness for claim C5 at a five-record session. -/
theorem get_context_recent_window_witness :
    get_context demoSession5 = "Recent interactions:\n" ++
      String.join (((demoSession5.session_history.reverse.take 3).reverse).map
        (fun r => "- " ++ pyTake r.request 100 ++ "...\n")) :=
  get_context_recent_window demoSession5 (by decide)

/-- Claim C2: when the first model invocation requests no tool calls,
`resolve` returns that output's text unchanged, as a done result with zero
rounds and zero tool executions, whatever the round budget. -/
theorem resolve_no_tool_calls_immediate (model : ModelService)
    (prompt instruction : String) (tool_set : List ToolSpec) (max_rounds : Nat)
    (h : (model instruction (declsOf tool_set) [.userPrompt prompt]).toolCalls = []) :
    resolve model prompt instruction tool_set max_rounds
      = ⟨.done, (model instruction (declsOf tool_set) [.userPrompt prompt]).text,
         0, 0⟩ := by
  simp [resolve, h]

/-- Witness for claim C2 with a model that answers at once. -/
theorem resolve_no_tool_calls_immediate_witness :
    resolve echoModel "plan my week" "be helpful" [] 3
      = ⟨.done, some "Here is your plan.", 0, 0⟩ :=
  resolve_no_tool_calls_immediate echoModel "plan my week" "be helpful" [] 3 rfl

/-- When the model never stops requesting tools, the round loop runs its
whole budget and surfaces the last obtained output as a degraded result. -/
theorem resolveLoop_exhausts (model : ModelService) (instruction : String)
    (tool_set : List ToolSpec)
    (h : ∀ conv, (model instruction (declsOf tool_set) conv).toolCalls ≠ []) :
    ∀ (n : Nat) (conv : List ConvItem) (out : ModelOutput) (rd ed : Nat),
      (resolveLoop model instruction tool_set conv out n rd ed).status
          = .degradedExhausted ∧
      (resolveLoop model instruction tool_set conv out n rd ed).rounds = rd + n ∧
      (resolveLoop model instruction tool_set conv out n rd ed).text
          = (lastOutputFrom model instruction tool_set conv out n).text := by
  intro n
  induction n with
  | zero =>
    intro conv out rd ed
    exact ⟨rfl, rfl, rfl⟩
  | succ k ih =>
    intro conv out rd ed
    have hB : (model instruction (declsOf tool_set)
        (conv ++ [.toolResults (out.toolCalls.map (executeTool tool_set))])).toolCalls.isEmpty
        = false := isEmpty_false_of_ne_nil (h _)
    simp only [resolveLoop, lastOutputFrom, hB, Bool.false_eq_true, if_false]
    refine ⟨(ih _ _ _ _).1, ?_, (ih _ _ _ _).2.2⟩
    rw [(ih _ _ _ _).2.1]
    omega

/-- Claim C1: against a model whose every response requests at least one
tool call, `resolve` with `max_rounds = 3` performs exactly three rounds
of tool execution — never a fourth — and returns the last obtained model
output's text as a degraded-exhausted result, raising nothing. -/
theorem resolve_exhausts_after_three_rounds (model : ModelService)
    (prompt instruction : String) (tool_set : List ToolSpec)
    (h : ∀ conv, (model instruction (declsOf tool_set) conv).toolCalls ≠ []) :
    (resolve model prompt instruction tool_set 3).status = .degradedExhausted ∧
    (resolve model prompt instruction tool_set 3).rounds = 3 ∧
    (resolve model prompt instruction tool_set 3).text
      = (lastOutputFrom model instruction tool_set
          ([.userPrompt prompt] ++
            [.modelTurn (model instruction (declsOf tool_set) [.userPrompt prompt])])
          (model instruction (declsOf tool_set) [.userPrompt prompt]) 3).text := by
  have hB : (model instruction (declsOf tool_set)
      [ConvItem.userPrompt prompt]).toolCalls.isEmpty = false :=
    isEmpty_false_of_ne_nil (h _)
  simp only [resolve, hB, Bool.false_eq_true, if_false]
  exact resolveLoop_exhausts model instruction tool_set h 3 _ _ 0 0

/-- Witness for claim C1 with a model that always requests a tool call. -/
theorem resolve_exhausts_after_three_rounds_witness :
    (resolve busyModel "plan meals" "be helpful" [] 3).status
        = .degradedExhausted ∧
    (resolve busyModel "plan meals" "be helpful" [] 3).rounds = 3 ∧
    (resolve busyModel "plan meals" "be helpful" [] 3).text
      = (lastOutputFrom busyModel "be helpful" []
          ([.userPrompt "plan meals"] ++
            [.modelTurn (busyModel "be helpful" (declsOf []) [.userPrompt "plan meals"])])
          (busyModel "be helpful" (declsOf []) [.userPrompt "plan meals"]) 3).text :=
  resolve_exhausts_after_three_rounds busyModel "plan meals" "be helpful" []
    (fun conv => by simp [busyModel])

end SmartLifeConcierge
